import Mathlib

/-
Verification of the gpg_secretstore module (plugins/modules/gpg_secretstore.py)
of the famedly ansible collection.

The module manages one secret per invocation, identified by a password slug.
The embedding models the state visible to one invocation of main():

  * the envelope at the resolved path of the slug (ciphertext file), carrying
    the plaintext payload and the recipient key ids recorded in its packet
    headers, and
  * the recipient list declared by the governing .gpg-id file of the slug.

The SecretStore class lives in the module_utils file gpg_utils of the same
collection, which is not part of the sources here; its operations are modelled
from the specification (see the doc comments below).  The orchestration in
main() is translated directly from the source.  The GPG engine is abstracted
by a function enc mapping the declared recipient ids to the recipient ids the
engine records in the ciphertext packet headers when encrypting for them; the
steady state of a correctly configured engine is enc declared = declared, and
the abstraction keeps re-reads from disk distinguishable from values merely
assumed from the declaration.

Data types (yaml/json decoding) are orthogonal to every claim treated here and
are modelled as the plain pass-through type, so a payload is a String.
-/

set_option autoImplicit false

/-- The ciphertext file at the resolved path of a slug: the decrypted payload
together with the recipient key ids recorded in the packet headers. -/
structure Envelope where
  payload : String
  actualRecipients : List String
  deriving DecidableEq

/-- The filesystem state relevant to one slug: the envelope (if any) and the
recipient ids declared by the governing .gpg-id file. -/
structure SlugState where
  envelope : Option Envelope
  declared : List String
  deriving DecidableEq

/-- One call into the SecretStore, recorded in the order the calls are made.
A call is recorded whether it succeeds or raises. -/
inductive StoreEvent where
  | readActual
  | readDeclared
  | decrypt
  | writeEnvelope
  | deleteEnvelope
  deriving DecidableEq, BEq

/-- The value of the action key of the result dict; the key is absent until a
branch sets it. -/
inductive ModuleAction where
  | add
  | update
  | remove
  deriving DecidableEq

/-- The result dict assembled by main(), restricted to the keys the claims
talk about.  diffBefore and diffAfter are the recipient lists before the final
newline join of lines 410 and 411. -/
structure ModuleResult where
  changed : Bool
  message : String
  warning : String
  secret : String
  diffBefore : List String
  diffAfter : List String
  action : Option ModuleAction
  deriving DecidableEq

/-- Exceptions of the SecretStore, modelled from the spec: FileNotFoundError
when no envelope exists at the resolved path, RecipientsMismatchError when the
recorded recipients differ from the declared ones during a checked get. -/
inductive StoreErr where
  | fileNotFound
  | recipientsMismatch
  deriving DecidableEq

/-- Failures of the secret generation strategies.  commandFailed is the
CalledProcessError raised by subprocess.run with check set, carrying the exit
status and the captured error stream; launchFailure is the OSError or
FileNotFoundError raised when the command cannot be launched; emptyAlphabet is
the IndexError raised by secrets.choice on an empty alphabet (the spec calls
it EmptyAlphabet); missingValue is the error kind the spec postulates for the
user supplied strategy, which the code never raises. -/
inductive GenError where
  | commandFailed (exitStatus : Int) (stderr : String)
  | launchFailure
  | emptyAlphabet
  | missingValue
  deriving DecidableEq

/-- An exception escaping main() uncaught: the module run ends in a traceback
instead of exit_json. -/
inductive ModErr where
  | storeErr (e : StoreErr)
  | genErr (e : GenError)
  deriving DecidableEq

instance exceptDecEq (ε α : Type) [DecidableEq ε] [DecidableEq α] :
    DecidableEq (Except ε α) := fun x y =>
  match x, y with
  | .ok a, .ok b =>
    if h : a = b then isTrue (by rw [h])
    else isFalse fun hc => h (by injection hc)
  | .ok _, .error _ => isFalse fun hc => Except.noConfusion hc
  | .error _, .ok _ => isFalse fun hc => Except.noConfusion hc
  | .error a, .error b =>
    if h : a = b then isTrue (by rw [h])
    else isFalse fun hc => h (by injection hc)

/-- The observable outcome of one branch of main(): the slug state after the
branch, the sequence of SecretStore calls it made, and either the assembled
result dict or the uncaught exception. -/
structure RunOutcome where
  state : SlugState
  trace : List StoreEvent
  outcome : Except ModErr ModuleResult
  deriving DecidableEq

/-- Modelled from the spec: SecretStore.get_recipients_from_encrypted_file of
the collection module_utils gpg_utils (not among the sources).  Lists the
recipient key ids recorded in the packet headers of the envelope without
decrypting; raises FileNotFoundError when no envelope exists at the resolved
path (the add path of main relies on exactly this exception). -/
def SecretStore.get_recipients_from_encrypted_file (s : SlugState) :
    Except StoreErr (List String) :=
  match s.envelope with
  | none => .error .fileNotFound
  | some e => .ok e.actualRecipients

/-- Modelled from the spec: SecretStore.get_recipients of gpg_utils.  Resolves
the declared recipients of the slug from the governing .gpg-id file. -/
def SecretStore.get_recipients (s : SlugState) : List String :=
  s.declared

/-- Modelled from the spec: SecretStore.put of gpg_utils.  Encrypts the data
for the currently declared recipients and replaces the envelope; the packet
headers of the written ciphertext record enc declared. -/
def SecretStore.put (enc : List String → List String) (data : String)
    (s : SlugState) : SlugState :=
  { s with envelope := some { payload := data, actualRecipients := enc s.declared } }

/-- Modelled from the spec: SecretStore.remove of gpg_utils.  Deletes the
envelope; raises FileNotFoundError when none exists. -/
def SecretStore.remove (s : SlugState) : Except StoreErr SlugState :=
  match s.envelope with
  | none => .error .fileNotFound
  | some _ => .ok { s with envelope := none }

/-- The state=present branch of main() (source lines 337 to 382), translated
statement by statement.  gen is the value a call of secretGenerator.getSecret
produces (an error is the exception it raises).  The paths:

  * no envelope: line 339 raises FileNotFoundError before the overwrite flag
    is consulted, so the handler at line 356 runs: generate, diff before [],
    diff after get_recipients, action add, changed true;
  * envelope present, overwrite: line 351 generates, action update, changed
    true, diff after := diff before (line 354); a launch failure of the
    generator is a FileNotFoundError caught at line 356, whose handler calls
    the generator again and the second raise escapes, so every generator
    error escapes with the branch state unchanged;
  * envelope present, no overwrite, recorded recipients equal declared: the
    checked store.get at line 343 returns the payload, changed false;
  * envelope present, no overwrite, recipients differ: store.get raises
    RecipientsMismatchError, the handler at line 364 sets the warning,
    re-reads the payload with check_recipients false, re-reads diff before
    from the envelope, sets diff after from get_recipients, action update,
    changed true.

Afterwards (lines 376 to 382), when changed and not in check mode, store.put
replaces the envelope and diff after is re-read from the freshly written
envelope, which records enc declared. -/
def presentOp (enc : List String → List String) (checkMode overwrite : Bool)
    (gen : Except GenError String) : SlugState → RunOutcome
  | ⟨none, d⟩ =>
    match gen with
    | .error e => { state := ⟨none, d⟩, trace := [.readActual], outcome := .error (.genErr e) }
    | .ok g =>
      let r : ModuleResult :=
        { changed := true, message := "Secret not found! Generation new secret", warning := "",
          secret := g, diffBefore := [],
          diffAfter := SecretStore.get_recipients ⟨none, d⟩, action := some .add }
      if checkMode then
        { state := ⟨none, d⟩, trace := [.readActual, .readDeclared], outcome := .ok r }
      else
        { state := SecretStore.put enc g ⟨none, d⟩,
          trace := [.readActual, .readDeclared, .writeEnvelope, .readActual],
          outcome := .ok { r with diffAfter := enc d } }
  | ⟨some e, d⟩ =>
    if overwrite then
      match gen with
      | .error ge =>
        { state := ⟨some e, d⟩, trace := [.readActual], outcome := .error (.genErr ge) }
      | .ok g =>
        let r : ModuleResult :=
          { changed := true, message := "Secret rotation requested: rotating, if possible.",
            warning := "", secret := g, diffBefore := e.actualRecipients,
            diffAfter := e.actualRecipients, action := some .update }
        if checkMode then
          { state := ⟨some e, d⟩, trace := [.readActual], outcome := .ok r }
        else
          { state := SecretStore.put enc g ⟨some e, d⟩,
            trace := [.readActual, .writeEnvelope, .readActual],
            outcome := .ok { r with diffAfter := enc d } }
    else
      if e.actualRecipients = d then
        { state := ⟨some e, d⟩, trace := [.readActual, .decrypt],
          outcome := .ok { changed := false, message := "", warning := "",
                           secret := e.payload, diffBefore := e.actualRecipients,
                           diffAfter := e.actualRecipients, action := none } }
      else
        let r : ModuleResult :=
          { changed := true, message := "",
            warning := "Secret-Recipient-Mismatch! Re-encrypting.",
            secret := e.payload, diffBefore := e.actualRecipients, diffAfter := d,
            action := some .update }
        if checkMode then
          { state := ⟨some e, d⟩,
            trace := [.readActual, .decrypt, .decrypt, .readActual, .readDeclared],
            outcome := .ok r }
        else
          { state := SecretStore.put enc e.payload ⟨some e, d⟩,
            trace := [.readActual, .decrypt, .decrypt, .readActual, .readDeclared,
                      .writeEnvelope, .readActual],
            outcome := .ok { r with diffAfter := enc d } }

/-- The state=absent branch of main() (source lines 384 to 402), translated
statement by statement.  The paths:

  * no envelope: store.get (check mode) or store.remove raises
    FileNotFoundError, the handler at line 398 reports changed false;
  * envelope present, check mode: store.get with default recipient checking
    either succeeds (recipients re-read, changed true reported, nothing
    deleted) or raises RecipientsMismatchError, which the absent branch does
    not catch, so the exception escapes;
  * envelope present, run mode: store.remove deletes the envelope, then line
    391 re-reads the recipients of the now deleted file, which raises
    FileNotFoundError; the handler at line 398 overwrites the message and
    leaves changed false, so lines 394 to 396 (action remove, changed true)
    never run even though the file was deleted. -/
def absentOp (checkMode : Bool) : SlugState → RunOutcome
  | ⟨none, d⟩ =>
    { state := ⟨none, d⟩,
      trace := [if checkMode then .decrypt else .deleteEnvelope],
      outcome := .ok { changed := false, message := "Secret didn\x27t exist", warning := "",
                       secret := "", diffBefore := [], diffAfter := [], action := none } }
  | ⟨some e, d⟩ =>
    if checkMode then
      if e.actualRecipients = d then
        { state := ⟨some e, d⟩, trace := [.decrypt, .readActual],
          outcome := .ok { changed := true, message := "Secret will be deleted!", warning := "",
                           secret := "", diffBefore := e.actualRecipients, diffAfter := [],
                           action := some .remove } }
      else
        { state := ⟨some e, d⟩, trace := [.decrypt],
          outcome := .error (.storeErr .recipientsMismatch) }
    else
      { state := ⟨none, d⟩, trace := [.deleteEnvelope, .readActual],
        outcome := .ok { changed := false, message := "Secret didn\x27t exist", warning := "",
                         secret := "", diffBefore := [], diffAfter := [], action := none } }

/-- The outcome of subprocess.run on an argument vector: the process completed
with an exit status and captured output streams, or it could not be launched
(Python raises OSError or FileNotFoundError in that case). -/
inductive CmdOutcome where
  | completed (exitStatus : Int) (stdout stderr : String)
  | notLaunched
  deriving DecidableEq

/-- The whitespace tokenization performed by the Python str.split() with no
arguments at source line 237: split on runs of whitespace, dropping empty
tokens.  The token list is handed to subprocess.run directly, with no shell
interpretation. -/
def tokenizeAux : List Char → List Char → List String
  | [], acc => if acc.isEmpty then [] else [String.mk acc.reverse]
  | ch :: rest, acc =>
    if ch.isWhitespace then
      if acc.isEmpty then tokenizeAux rest []
      else String.mk acc.reverse :: tokenizeAux rest []
    else tokenizeAux rest (ch :: acc)

/-- The token list handed to subprocess.run, with no shell interpretation. -/
def tokenizeCmd (cmd : String) : List String :=
  tokenizeAux cmd.data []

/-- SecretGenerator.__binarySecret (source lines 233 to 239): tokenize the
command on whitespace, run it capturing both streams, and with check set
subprocess.run raises CalledProcessError on a nonzero exit status, carrying
the status and the captured error stream; the captured standard output is the
secret otherwise.  runner abstracts the operating system running one argument
vector. -/
def binarySecret (runner : List String → CmdOutcome) (binary : String) :
    Except GenError String :=
  match runner (tokenizeCmd binary) with
  | .completed exitStatus out err =>
    if exitStatus = 0 then .ok out else .error (.commandFailed exitStatus err)
  | .notLaunched => .error .launchFailure

/-- SecretGenerator.__userSuppliedSecret (source lines 241 to 243): the
supplied value is returned verbatim.  main always passes the module parameter
user_supplied_secret, which is None when the caller supplied no literal, and
the function returns that None unchanged; no exception is raised. -/
def userSuppliedSecret (user_supplied_secret : Option String) :
    Except GenError (Option String) :=
  .ok user_supplied_secret

/-- The character universe string.printable of the Python string module, in
its exact content and order: digits, lowercase, uppercase, punctuation,
whitespace. -/
def charRange (lo len : Nat) : List Char :=
  (List.range len).map fun k => Char.ofNat (lo + k)

/-- Python string.printable as a list of characters. -/
def stringPrintable : List Char :=
  charRange 48 10 ++ charRange 97 26 ++ charRange 65 26 ++
  charRange 33 15 ++ charRange 58 7 ++ charRange 91 6 ++ charRange 123 4 ++
  [Char.ofNat 32, Char.ofNat 9, Char.ofNat 10, Char.ofNat 13,
   Char.ofNat 11, Char.ofNat 12]

/-- SecretGenerator.__randomSecret (source lines 222 to 231): re.findall of a
single character pattern against string.printable keeps exactly the matching
characters in order, modelled by the predicate p; then length characters are
drawn by secrets.choice from that alphabet and joined.  chooser abstracts the
random source of secrets.choice: the index of the draw for each position
(reduced modulo the alphabet size).  On an empty alphabet secrets.choice
raises (the spec names this EmptyAlphabet). -/
def randomSecret (p : Char → Bool) (length : Nat) (chooser : Nat → Nat) :
    Except GenError String :=
  match stringPrintable.filter p with
  | [] => .error .emptyAlphabet
  | c :: cs =>
    .ok (String.mk ((List.range length).map fun i =>
      (c :: cs).getD (chooser i % (c :: cs).length) c))

/-- The outcome of one acquisition attempt on a filelock.FileLock. -/
inductive LockOutcome where
  | acquired
  | blocksForever
  | lockTimeout
  deriving DecidableEq, BEq

/-- Modelled from the documented semantics of filelock.FileLock: acquire with
a negative timeout waits for the lock indefinitely; with a nonnegative timeout
it raises the Timeout exception once the timeout elapses while the lock is
held elsewhere. -/
def fileLockAcquire (timeout : Int) (lockAvailable : Bool) : LockOutcome :=
  if lockAvailable then .acquired
  else if timeout < 0 then .blocksForever
  else .lockTimeout

/-- The lock acquisition of main (source lines 333 to 336): FileLock is
constructed with only the lock file path (a stable md5 derivation of the
slug); the timeout argument is omitted, and the filelock default timeout is
-1. -/
def moduleLockAcquire (lockAvailable : Bool) : LockOutcome :=
  fileLockAcquire (-1) lockAvailable

/-- C1: for every slug whose envelope records recipients different from the
declared ones, present without overwrite succeeds, returns the original
plaintext as the secret, re-encrypts that same plaintext for the declared
recipients overwriting the envelope, reports diff before as the old recorded
recipients and diff after as the declared list, sets changed with action
update, and surfaces a non fatal warning.  The hypothesis enc d = d states
that the engine records exactly the declared ids when encrypting for them. -/
theorem C1_recipient_reconciliation (enc : List String → List String)
    (gen : Except GenError String) (e : Envelope) (d : List String)
    (henc : enc d = d) (hne : e.actualRecipients ≠ d) :
    presentOp enc false false gen ⟨some e, d⟩ =
      { state := ⟨some { payload := e.payload, actualRecipients := d }, d⟩,
        trace := [.readActual, .decrypt, .decrypt, .readActual, .readDeclared,
                  .writeEnvelope, .readActual],
        outcome := .ok { changed := true, message := "",
                         warning := "Secret-Recipient-Mismatch! Re-encrypting.",
                         secret := e.payload, diffBefore := e.actualRecipients,
                         diffAfter := d, action := some .update } } := by
  simp [presentOp, SecretStore.put, hne, henc]

/-- Witness for C1: an envelope encrypted for A and B under a directory now
declaring A and C is reconciled. -/
theorem C1_recipient_reconciliation_witness :
    presentOp (fun l => l) false false (Except.ok "new")
        ⟨some { payload := "pw", actualRecipients := ["A", "B"] }, ["A", "C"]⟩ =
      { state := ⟨some { payload := "pw", actualRecipients := ["A", "C"] }, ["A", "C"]⟩,
        trace := [.readActual, .decrypt, .decrypt, .readActual, .readDeclared,
                  .writeEnvelope, .readActual],
        outcome := .ok { changed := true, message := "",
                         warning := "Secret-Recipient-Mismatch! Re-encrypting.",
                         secret := "pw", diffBefore := ["A", "B"],
                         diffAfter := ["A", "C"], action := some .update } } :=
  C1_recipient_reconciliation (fun l => l) (Except.ok "new")
    { payload := "pw", actualRecipients := ["A", "B"] } ["A", "C"] rfl (by decide)

/-- C2: present without overwrite on a missing envelope adds the generated
secret with changed true, and a second present call without overwrite on the
resulting state reports changed false, leaves the envelope untouched, and
returns the identical secret value, whatever the second generator would
produce. -/
theorem C2_present_twice_idempotent (enc : List String → List String)
    (g : String) (gen2 : Except GenError String) (d : List String)
    (henc : enc d = d) :
    (presentOp enc false false (Except.ok g) ⟨none, d⟩).state =
      ⟨some { payload := g, actualRecipients := d }, d⟩ ∧
    (presentOp enc false false (Except.ok g) ⟨none, d⟩).outcome =
      Except.ok { changed := true, message := "Secret not found! Generation new secret",
                  warning := "", secret := g, diffBefore := [], diffAfter := d,
                  action := some .add } ∧
    presentOp enc false false gen2
        (presentOp enc false false (Except.ok g) ⟨none, d⟩).state =
      { state := ⟨some { payload := g, actualRecipients := d }, d⟩,
        trace := [.readActual, .decrypt],
        outcome := Except.ok { changed := false, message := "", warning := "",
                               secret := g, diffBefore := d, diffAfter := d,
                               action := none } } := by
  refine ⟨?_, ?_, ?_⟩ <;>
    simp [presentOp, SecretStore.put, SecretStore.get_recipients, henc]

/-- Witness for C2 at a concrete slug state. -/
theorem C2_present_twice_idempotent_witness :
    (presentOp (fun l => l) false false (Except.ok "s3cret") ⟨none, ["A"]⟩).state =
      ⟨some { payload := "s3cret", actualRecipients := ["A"] }, ["A"]⟩ ∧
    (presentOp (fun l => l) false false (Except.ok "s3cret") ⟨none, ["A"]⟩).outcome =
      Except.ok { changed := true, message := "Secret not found! Generation new secret",
                  warning := "", secret := "s3cret", diffBefore := [], diffAfter := ["A"],
                  action := some .add } ∧
    presentOp (fun l => l) false false (Except.ok "other")
        (presentOp (fun l => l) false false (Except.ok "s3cret") ⟨none, ["A"]⟩).state =
      { state := ⟨some { payload := "s3cret", actualRecipients := ["A"] }, ["A"]⟩,
        trace := [.readActual, .decrypt],
        outcome := Except.ok { changed := false, message := "", warning := "",
                               secret := "s3cret", diffBefore := ["A"], diffAfter := ["A"],
                               action := none } } :=
  C2_present_twice_idempotent (fun l => l) "s3cret" (Except.ok "other") ["A"] rfl

/-- C10: present with overwrite true on a missing envelope behaves exactly as
with overwrite false: the missing envelope is detected (line 339 raises)
before the overwrite flag is consulted (line 342), so the run is an add with
the freshly generated secret and an empty diff before. -/
theorem C10_overwrite_irrelevant_on_add (enc : List String → List String)
    (cm : Bool) (g : String) (d : List String) :
    presentOp enc cm true (Except.ok g) ⟨none, d⟩ =
      presentOp enc cm false (Except.ok g) ⟨none, d⟩ ∧
    (presentOp enc cm true (Except.ok g) ⟨none, d⟩).outcome.map
        (fun r => (r.action, r.changed, r.secret, r.diffBefore)) =
      Except.ok (some ModuleAction.add, true, g, ([] : List String)) := by
  cases cm <;>
    simp [presentOp, SecretStore.put, SecretStore.get_recipients, Except.map]

/-- C3: evaluation of the absent branch.  On a missing envelope the run is a
no-op with changed false (third conjunct), as the claim states.  On an
existing envelope outside check mode, however, the envelope is deleted (first
conjunct) while the result reports changed false with the not-found message
(second conjunct): line 391 re-reads the recipients of the file deleted at
line 389, raising FileNotFoundError, whose handler at line 398 resets the
message, leaves changed false, and lines 394 to 396 never run. -/
theorem C3_absent_deletes_but_reports_unchanged :
    (absentOp false ⟨some { payload := "pw", actualRecipients := ["A"] }, ["A"]⟩).state.envelope
      = none ∧
    (absentOp false ⟨some { payload := "pw", actualRecipients := ["A"] }, ["A"]⟩).outcome =
      Except.ok { changed := false, message := "Secret didn\x27t exist", warning := "",
                  secret := "", diffBefore := [], diffAfter := [], action := none } ∧
    absentOp false ⟨none, ["A"]⟩ =
      { state := ⟨none, ["A"]⟩, trace := [.deleteEnvelope],
        outcome := Except.ok { changed := false, message := "Secret didn\x27t exist",
                               warning := "", secret := "", diffBefore := [],
                               diffAfter := [], action := none } } :=
  ⟨rfl, rfl, rfl⟩

/-- C4: whenever a present run outside check mode reports changed, the diff
after list it reports equals what a fresh read of the recipients recorded in
the envelope now on disk returns, for every behavior enc of the engine, so the
reported value is re-read from the written envelope rather than assumed from
the declaration. -/
theorem C4_after_is_reread_from_disk (enc : List String → List String)
    (ow : Bool) (gen : Except GenError String) (s : SlugState) (r : ModuleResult)
    (hok : (presentOp enc false ow gen s).outcome = Except.ok r)
    (hch : r.changed = true) :
    SecretStore.get_recipients_from_encrypted_file (presentOp enc false ow gen s).state =
      Except.ok r.diffAfter := by
  obtain ⟨env, d⟩ := s
  cases env with
  | none =>
    cases gen with
    | error e => simp [presentOp] at hok
    | ok g =>
      simp [presentOp, SecretStore.get_recipients] at hok
      subst hok
      simp [presentOp, SecretStore.put, SecretStore.get_recipients_from_encrypted_file,
            SecretStore.get_recipients]
  | some e =>
    cases ow with
    | true =>
      cases gen with
      | error ge => simp [presentOp] at hok
      | ok g =>
        simp [presentOp] at hok
        subst hok
        simp [presentOp, SecretStore.put, SecretStore.get_recipients_from_encrypted_file]
    | false =>
      by_cases hm : e.actualRecipients = d
      · simp [presentOp, hm] at hok
        subst hok
        simp at hch
      · simp [presentOp, hm] at hok
        subst hok
        simp [presentOp, hm, SecretStore.put, SecretStore.get_recipients_from_encrypted_file]

/-- Witness for C4, with an engine that records a key id beyond the declared
list: the reported diff after is the recorded list, not the declared one. -/
theorem C4_after_is_reread_from_disk_witness :
    SecretStore.get_recipients_from_encrypted_file
        (presentOp (fun l => "K" :: l) false false (Except.ok "g") ⟨none, ["A"]⟩).state =
      Except.ok ["K", "A"] :=
  C4_after_is_reread_from_disk (fun l => "K" :: l) false (Except.ok "g") ⟨none, ["A"]⟩
    { changed := true, message := "Secret not found! Generation new secret", warning := "",
      secret := "g", diffBefore := [], diffAfter := ["K", "A"], action := some .add }
    rfl rfl

/-- A trace without envelope writes and without envelope deletions. -/
def mutationFree (tr : List StoreEvent) : Bool :=
  tr.all fun ev => ev != StoreEvent.writeEnvelope && ev != StoreEvent.deleteEnvelope

/-- C5: in check mode, both branches leave the slug state untouched and their
store call traces hold no envelope write and no envelope deletion, while the
reads still happen: the present branch always performs the recipient lookup on
the envelope, and the absent branch always performs the decrypting get. -/
theorem C5_check_mode_suppresses_mutation (enc : List String → List String)
    (ow : Bool) (gen : Except GenError String) (s : SlugState) :
    (presentOp enc true ow gen s).state = s ∧
    mutationFree (presentOp enc true ow gen s).trace = true ∧
    (presentOp enc true ow gen s).trace.contains StoreEvent.readActual = true ∧
    (absentOp true s).state = s ∧
    mutationFree (absentOp true s).trace = true ∧
    (absentOp true s).trace.contains StoreEvent.decrypt = true := by
  obtain ⟨env, d⟩ := s
  cases env with
  | none =>
    cases gen <;> cases ow <;>
      simp [presentOp, absentOp, mutationFree, SecretStore.get_recipients] <;> decide
  | some e =>
    by_cases hm : e.actualRecipients = d <;> cases gen <;> cases ow <;>
      simp [presentOp, absentOp, mutationFree, hm] <;> decide

/-- C6 counterexample: at the concrete input where the lock is held elsewhere,
the acquisition of main blocks indefinitely and does not produce the timeout
failure the claim requires, because main constructs the FileLock without a
timeout argument and the filelock default is -1. -/
theorem C6_no_lock_timeout_counterexample :
    moduleLockAcquire false = LockOutcome.blocksForever ∧
    (moduleLockAcquire false == LockOutcome.lockTimeout) = false := by
  decide

/-- C6 amended: lock acquisition in main never fails with a timeout; when the
lock cannot be obtained it blocks indefinitely. -/
theorem C6_lock_blocks_indefinitely :
    (∀ lockAvailable : Bool,
      (moduleLockAcquire lockAvailable == LockOutcome.lockTimeout) = false) ∧
    moduleLockAcquire false = LockOutcome.blocksForever := by
  decide

/-- C7 counterexample: when no literal was supplied (the module parameter
defaults to None), generation does not fail with MissingValue; it succeeds
and returns the missing value itself. -/
theorem C7_user_supplied_counterexample :
    userSuppliedSecret none = Except.ok none :=
  rfl

/-- C7 amended: the user supplied strategy returns the caller provided value
verbatim in every case, including the None of a caller that supplied no
literal; no failure path exists. -/
theorem C7_user_supplied_verbatim :
    ∀ v : Option String, userSuppliedSecret v = Except.ok v :=
  fun _ => rfl

/-- C8: the binary strategy tokenizes the command on whitespace and hands the
argument vector to the runner with no shell involved (fourth conjunct shows
the tokenization on a command with padding and a run of blanks); on exit
status zero the captured standard output is the secret; on a nonzero exit
status generation fails carrying the status and the captured error stream; a
command that cannot be launched also fails generation; and whenever a present
run ends in an escaped generator error, the slug state, hence the envelope, is
unchanged. -/
theorem C8_binary_generation :
    (∀ (runner : List String → CmdOutcome) (cmd out err : String),
        runner (tokenizeCmd cmd) = CmdOutcome.completed 0 out err →
        binarySecret runner cmd = Except.ok out) ∧
    (∀ (runner : List String → CmdOutcome) (cmd out err : String) (code : Int),
        code ≠ 0 →
        runner (tokenizeCmd cmd) = CmdOutcome.completed code out err →
        binarySecret runner cmd = Except.error (GenError.commandFailed code err)) ∧
    (∀ (runner : List String → CmdOutcome) (cmd : String),
        runner (tokenizeCmd cmd) = CmdOutcome.notLaunched →
        binarySecret runner cmd = Except.error GenError.launchFailure) ∧
    tokenizeCmd " openssl  rand -hex 16 " = ["openssl", "rand", "-hex", "16"] ∧
    (∀ (enc : List String → List String) (cm ow : Bool) (s : SlugState) (e : GenError),
        (presentOp enc cm ow (Except.error e) s).outcome = Except.error (ModErr.genErr e) →
        (presentOp enc cm ow (Except.error e) s).state = s) := by
  refine ⟨?_, ?_, ?_, ?_, ?_⟩
  · intro runner cmd out err h
    simp [binarySecret, h]
  · intro runner cmd out err code hc h
    simp [binarySecret, h, hc]
  · intro runner cmd h
    simp [binarySecret, h]
  · decide
  · intro enc cm ow s e h
    obtain ⟨env, d⟩ := s
    cases env with
    | none => rfl
    | some ev =>
      cases ow with
      | true => rfl
      | false =>
        by_cases hm : ev.actualRecipients = d
        · simp [presentOp, hm] at h
        · cases cm <;> simp [presentOp, hm] at h

/-- Witness for C8 with concrete runners for the three outcomes and a
concrete present run whose generator fails. -/
theorem C8_binary_generation_witness :
    binarySecret (fun _ => CmdOutcome.completed 0 "out" "") "echo hi" = Except.ok "out" ∧
    binarySecret (fun _ => CmdOutcome.completed 3 "" "boom") "badcmd" =
      Except.error (GenError.commandFailed 3 "boom") ∧
    binarySecret (fun _ => CmdOutcome.notLaunched) "nosuch" =
      Except.error GenError.launchFailure ∧
    (presentOp (fun l => l) false true (Except.error (GenError.commandFailed 3 "boom"))
        ⟨some { payload := "pw", actualRecipients := ["A"] }, ["A"]⟩).state =
      ⟨some { payload := "pw", actualRecipients := ["A"] }, ["A"]⟩ :=
  ⟨C8_binary_generation.1 _ "echo hi" "out" "" rfl,
   C8_binary_generation.2.1 _ "badcmd" "" "boom" 3 (by decide) rfl,
   C8_binary_generation.2.2.1 _ "nosuch" rfl,
   C8_binary_generation.2.2.2.2 (fun l => l) false true _
     (GenError.commandFailed 3 "boom") rfl⟩

theorem getD_mod_mem (c : Char) (cs : List Char) (k : Nat) (d : Char) :
    (c :: cs).getD (k % (c :: cs).length) d ∈ c :: cs := by
  have hlt : k % (c :: cs).length < (c :: cs).length :=
    Nat.mod_lt _ (Nat.succ_pos _)
  rw [List.getD_eq_getElem _ _ hlt]
  exact List.getElem_mem hlt

/-- C9: whenever the pattern matches at least one character of the printable
universe, random generation succeeds with a string of exactly the requested
length whose every character lies in the alphabet obtained by matching the
pattern once against the universe; each position is filled by an independent
draw of the random source reduced onto the whole alphabet. -/
theorem C9_random_generation (p : Char → Bool) (n : Nat) (chooser : Nat → Nat)
    (h : stringPrintable.filter p ≠ []) :
    (randomSecret p n chooser).map (fun out => out.length) = Except.ok n ∧
    (randomSecret p n chooser).map
        (fun out => out.data.all fun ch => decide (ch ∈ stringPrintable.filter p)) =
      Except.ok true := by
  cases hc : stringPrintable.filter p with
  | nil => exact absurd hc h
  | cons c cs =>
    constructor
    · simp [randomSecret, hc, Except.map, String.length]
    · simp only [randomSecret, hc, Except.map, Except.ok.injEq]
      rw [List.all_eq_true]
      intro x hx
      simp only [String.mk, List.mem_map, List.mem_range] at hx
      obtain ⟨i, _, rfl⟩ := hx
      rw [decide_eq_true_eq]
      exact getD_mod_mem c cs (chooser i) c

/-- Witness for C9: pattern for digits with length five yields a five
character string of digits only. -/
theorem C9_random_generation_witness :
    ((randomSecret (fun ch => ch.isDigit) 5 (fun i => i)).map (fun out => out.length) =
      Except.ok 5) ∧
    ((randomSecret (fun ch => ch.isDigit) 5 (fun i => i)).map
        (fun out => out.data.all fun ch =>
          decide (ch ∈ stringPrintable.filter fun ch => ch.isDigit)) =
      Except.ok true) :=
  C9_random_generation (fun ch => ch.isDigit) 5 (fun i => i) (by decide)
